import Mathlib

/-!
# Verification of libxlsxwriter common definitions and core contracts

This file gives a shallow embedding, in Lean 4, of the parts of
libxlsxwriter that the specification talks about:

* the `lxw_error` error enumeration and the `lxw_boolean` enumeration
  from `include/xlsxwriter/common.h`;
* the chart-axis warning guard macros (`LXW_WARN_CAT_AXIS_ONLY` and
  friends) from the same header;
* the byte-order conversion macros (`LXW_UINT16_NETWORK` etc.) in both
  their little-endian and `LXW_BIG_ENDIAN` configurations;
* models of the worksheet cell grid, the sheet-name validation, the
  hyperlink limits and the shared-string table.  The C sources for those
  (worksheet.c, workbook.c, shared_strings.c) are not part of the
  visible tree, so the corresponding definitions are modelled from the
  specification; each such definition says so in its doc comment.

Machine integers are represented as `Nat`, with explicit bounds
(`n < 2 ^ 16`, `n < 2 ^ 32`) where the C width matters.
-/

/-! ## The error enumeration (`lxw_error`, common.h lines 66-153) -/

/-- The `lxw_error` enumeration of common.h.  The C enum assigns
`LXW_NO_ERROR = 0` and consecutive values to the following members;
`LXW_MAX_ERRNO` is the final member. -/
inductive lxw_error : Type
  | LXW_NO_ERROR
  | LXW_ERROR_MEMORY_MALLOC_FAILED
  | LXW_ERROR_CREATING_XLSX_FILE
  | LXW_ERROR_CREATING_TMPFILE
  | LXW_ERROR_READING_TMPFILE
  | LXW_ERROR_ZIP_FILE_OPERATION
  | LXW_ERROR_ZIP_PARAMETER_ERROR
  | LXW_ERROR_ZIP_BAD_ZIP_FILE
  | LXW_ERROR_ZIP_INTERNAL_ERROR
  | LXW_ERROR_ZIP_FILE_ADD
  | LXW_ERROR_ZIP_CLOSE
  | LXW_ERROR_FEATURE_NOT_SUPPORTED
  | LXW_ERROR_NULL_PARAMETER_IGNORED
  | LXW_ERROR_PARAMETER_VALIDATION
  | LXW_ERROR_PARAMETER_IS_EMPTY
  | LXW_ERROR_SHEETNAME_LENGTH_EXCEEDED
  | LXW_ERROR_INVALID_SHEETNAME_CHARACTER
  | LXW_ERROR_SHEETNAME_START_END_APOSTROPHE
  | LXW_ERROR_SHEETNAME_ALREADY_USED
  | LXW_ERROR_32_STRING_LENGTH_EXCEEDED
  | LXW_ERROR_128_STRING_LENGTH_EXCEEDED
  | LXW_ERROR_255_STRING_LENGTH_EXCEEDED
  | LXW_ERROR_MAX_STRING_LENGTH_EXCEEDED
  | LXW_ERROR_SHARED_STRING_INDEX_NOT_FOUND
  | LXW_ERROR_WORKSHEET_INDEX_OUT_OF_RANGE
  | LXW_ERROR_WORKSHEET_MAX_URL_LENGTH_EXCEEDED
  | LXW_ERROR_WORKSHEET_MAX_NUMBER_URLS_EXCEEDED
  | LXW_ERROR_IMAGE_DIMENSIONS
  | LXW_MAX_ERRNO
  deriving DecidableEq, Repr, Fintype

/-- The numeric value each `lxw_error` member has in C: `LXW_NO_ERROR` is
declared `= 0` and every later member takes the next value. -/
def lxw_error.code : lxw_error → Nat
  | .LXW_NO_ERROR => 0
  | .LXW_ERROR_MEMORY_MALLOC_FAILED => 1
  | .LXW_ERROR_CREATING_XLSX_FILE => 2
  | .LXW_ERROR_CREATING_TMPFILE => 3
  | .LXW_ERROR_READING_TMPFILE => 4
  | .LXW_ERROR_ZIP_FILE_OPERATION => 5
  | .LXW_ERROR_ZIP_PARAMETER_ERROR => 6
  | .LXW_ERROR_ZIP_BAD_ZIP_FILE => 7
  | .LXW_ERROR_ZIP_INTERNAL_ERROR => 8
  | .LXW_ERROR_ZIP_FILE_ADD => 9
  | .LXW_ERROR_ZIP_CLOSE => 10
  | .LXW_ERROR_FEATURE_NOT_SUPPORTED => 11
  | .LXW_ERROR_NULL_PARAMETER_IGNORED => 12
  | .LXW_ERROR_PARAMETER_VALIDATION => 13
  | .LXW_ERROR_PARAMETER_IS_EMPTY => 14
  | .LXW_ERROR_SHEETNAME_LENGTH_EXCEEDED => 15
  | .LXW_ERROR_INVALID_SHEETNAME_CHARACTER => 16
  | .LXW_ERROR_SHEETNAME_START_END_APOSTROPHE => 17
  | .LXW_ERROR_SHEETNAME_ALREADY_USED => 18
  | .LXW_ERROR_32_STRING_LENGTH_EXCEEDED => 19
  | .LXW_ERROR_128_STRING_LENGTH_EXCEEDED => 20
  | .LXW_ERROR_255_STRING_LENGTH_EXCEEDED => 21
  | .LXW_ERROR_MAX_STRING_LENGTH_EXCEEDED => 22
  | .LXW_ERROR_SHARED_STRING_INDEX_NOT_FOUND => 23
  | .LXW_ERROR_WORKSHEET_INDEX_OUT_OF_RANGE => 24
  | .LXW_ERROR_WORKSHEET_MAX_URL_LENGTH_EXCEEDED => 25
  | .LXW_ERROR_WORKSHEET_MAX_NUMBER_URLS_EXCEEDED => 26
  | .LXW_ERROR_IMAGE_DIMENSIONS => 27
  | .LXW_MAX_ERRNO => 28

/-- Modelled from the spec: `lxw_strerror` (utility.c, which is not in
the visible tree) maps each error number below `LXW_MAX_ERRNO` to a
stable human-readable message.  The messages used here are the
descriptions the header itself documents for each member. -/
def lxw_strerror : lxw_error → String
  | .LXW_NO_ERROR => "No error."
  | .LXW_ERROR_MEMORY_MALLOC_FAILED => "Memory error, failed to malloc() required memory."
  | .LXW_ERROR_CREATING_XLSX_FILE => "Error creating output xlsx file. Usually a permissions error."
  | .LXW_ERROR_CREATING_TMPFILE => "Error encountered when creating a tmpfile during file assembly."
  | .LXW_ERROR_READING_TMPFILE => "Error reading a tmpfile."
  | .LXW_ERROR_ZIP_FILE_OPERATION => "Zip generic error ZIP_ERRNO while creating the xlsx file."
  | .LXW_ERROR_ZIP_PARAMETER_ERROR => "Zip error ZIP_PARAMERROR while creating the xlsx file."
  | .LXW_ERROR_ZIP_BAD_ZIP_FILE => "Zip error ZIP_BADZIPFILE (use_zip64 option may be required)."
  | .LXW_ERROR_ZIP_INTERNAL_ERROR => "Zip error ZIP_INTERNALERROR while creating the xlsx file."
  | .LXW_ERROR_ZIP_FILE_ADD => "File error or unknown zip error when adding sub file to xlsx file."
  | .LXW_ERROR_ZIP_CLOSE => "Unknown zip error when closing xlsx file."
  | .LXW_ERROR_FEATURE_NOT_SUPPORTED => "Feature is not currently supported in this configuration."
  | .LXW_ERROR_NULL_PARAMETER_IGNORED => "NULL function parameter ignored."
  | .LXW_ERROR_PARAMETER_VALIDATION => "Function parameter validation error."
  | .LXW_ERROR_PARAMETER_IS_EMPTY => "Function string parameter is empty."
  | .LXW_ERROR_SHEETNAME_LENGTH_EXCEEDED => "Worksheet name exceeds Excel limit of 31 characters."
  | .LXW_ERROR_INVALID_SHEETNAME_CHARACTER => "Worksheet name cannot contain invalid characters."
  | .LXW_ERROR_SHEETNAME_START_END_APOSTROPHE => "Worksheet name cannot start or end with an apostrophe."
  | .LXW_ERROR_SHEETNAME_ALREADY_USED => "Worksheet name is already in use."
  | .LXW_ERROR_32_STRING_LENGTH_EXCEEDED => "Parameter exceeds Excel limit of 32 characters."
  | .LXW_ERROR_128_STRING_LENGTH_EXCEEDED => "Parameter exceeds Excel limit of 128 characters."
  | .LXW_ERROR_255_STRING_LENGTH_EXCEEDED => "Parameter exceeds Excel limit of 255 characters."
  | .LXW_ERROR_MAX_STRING_LENGTH_EXCEEDED => "String exceeds Excel limit of 32767 characters."
  | .LXW_ERROR_SHARED_STRING_INDEX_NOT_FOUND => "Error finding internal string index."
  | .LXW_ERROR_WORKSHEET_INDEX_OUT_OF_RANGE => "Worksheet row or column index out of range."
  | .LXW_ERROR_WORKSHEET_MAX_URL_LENGTH_EXCEEDED => "Maximum hyperlink length (2079) exceeded."
  | .LXW_ERROR_WORKSHEET_MAX_NUMBER_URLS_EXCEEDED => "Maximum number of worksheet URLs (65530) exceeded."
  | .LXW_ERROR_IMAGE_DIMENSIONS => "Could not read image dimensions or DPI."
  | .LXW_MAX_ERRNO => "Unknown error number."

/-! ## The boolean enumeration (`lxw_boolean`, common.h lines 49-58) -/

/-- The `lxw_boolean` enumeration of common.h: `LXW_FALSE`, `LXW_TRUE`
and `LXW_EXPLICIT_FALSE`, in declaration order. -/
inductive lxw_boolean : Type
  | LXW_FALSE
  | LXW_TRUE
  | LXW_EXPLICIT_FALSE
  deriving DecidableEq, Repr

/-- The C value of each `lxw_boolean` member (consecutive from 0). -/
def lxw_boolean.code : lxw_boolean → Nat
  | .LXW_FALSE => 0
  | .LXW_TRUE => 1
  | .LXW_EXPLICIT_FALSE => 2

/-! ## Claims C1 and C10 -/

/-- C1: the error surface is the closed enumeration `lxw_error`; members
are pairwise distinct (`code` is injective), the no-error value is 0,
each listed error kind is a member with its own code, and every member
below `LXW_MAX_ERRNO` has a nonempty human-readable message. -/
theorem lxw_error_enumeration_spec :
    lxw_error.code .LXW_NO_ERROR = 0 ∧
    Function.Injective lxw_error.code ∧
    lxw_error.code .LXW_ERROR_MEMORY_MALLOC_FAILED = 1 ∧
    lxw_error.code .LXW_ERROR_CREATING_XLSX_FILE = 2 ∧
    lxw_error.code .LXW_ERROR_ZIP_FILE_OPERATION = 5 ∧
    lxw_error.code .LXW_ERROR_READING_TMPFILE = 4 ∧
    lxw_error.code .LXW_ERROR_ZIP_PARAMETER_ERROR = 6 ∧
    lxw_error.code .LXW_ERROR_ZIP_INTERNAL_ERROR = 8 ∧
    lxw_error.code .LXW_ERROR_FEATURE_NOT_SUPPORTED = 11 ∧
    lxw_error.code .LXW_ERROR_NULL_PARAMETER_IGNORED = 12 ∧
    lxw_error.code .LXW_ERROR_MAX_STRING_LENGTH_EXCEEDED = 22 ∧
    lxw_error.code .LXW_ERROR_SHEETNAME_LENGTH_EXCEEDED = 15 ∧
    lxw_error.code .LXW_ERROR_INVALID_SHEETNAME_CHARACTER = 16 ∧
    lxw_error.code .LXW_ERROR_SHEETNAME_START_END_APOSTROPHE = 17 ∧
    lxw_error.code .LXW_ERROR_SHEETNAME_ALREADY_USED = 18 ∧
    lxw_error.code .LXW_ERROR_WORKSHEET_INDEX_OUT_OF_RANGE = 24 ∧
    lxw_error.code .LXW_ERROR_SHARED_STRING_INDEX_NOT_FOUND = 23 ∧
    lxw_error.code .LXW_ERROR_IMAGE_DIMENSIONS = 27 ∧
    (∀ e : lxw_error, e.code < lxw_error.code .LXW_MAX_ERRNO → lxw_strerror e ≠ "") := by
  refine ⟨rfl, ?_, rfl, rfl, rfl, rfl, rfl, rfl, rfl, rfl, rfl, rfl, rfl, rfl, rfl, rfl,
    rfl, rfl, ?_⟩
  · intro a b h
    revert h
    revert a b
    decide
  · intro e _
    revert e
    decide

/-- Witness for C1 at a concrete member: `LXW_ERROR_MAX_STRING_LENGTH_EXCEEDED`
lies below `LXW_MAX_ERRNO` and its message is nonempty. -/
theorem lxw_error_enumeration_spec_witness :
    lxw_strerror .LXW_ERROR_MAX_STRING_LENGTH_EXCEEDED ≠ "" :=
  lxw_error_enumeration_spec.2.2.2.2.2.2.2.2.2.2.2.2.2.2.2.2.2.2
    .LXW_ERROR_MAX_STRING_LENGTH_EXCEEDED (by decide)

/-- C10: `lxw_boolean` assigns `LXW_FALSE = 0`, `LXW_TRUE = 1`,
`LXW_EXPLICIT_FALSE = 2`; the three values are pairwise distinct, so
`LXW_EXPLICIT_FALSE` is nonzero (truthy in C) although it denotes an
off setting. -/
theorem lxw_boolean_enumeration_spec :
    lxw_boolean.code .LXW_FALSE = 0 ∧
    lxw_boolean.code .LXW_TRUE = 1 ∧
    lxw_boolean.code .LXW_EXPLICIT_FALSE = 2 ∧
    lxw_boolean.code .LXW_FALSE ≠ lxw_boolean.code .LXW_TRUE ∧
    lxw_boolean.code .LXW_TRUE ≠ lxw_boolean.code .LXW_EXPLICIT_FALSE ∧
    lxw_boolean.code .LXW_FALSE ≠ lxw_boolean.code .LXW_EXPLICIT_FALSE ∧
    lxw_boolean.code .LXW_EXPLICIT_FALSE ≠ 0 := by
  decide

/-! ## Byte-order conversion macros (common.h lines 346-362)

The header defines the macros twice: when `LXW_BIG_ENDIAN` is not set
(little-endian hosts) `LXW_UINT16_HOST`/`LXW_UINT32_HOST` are the
identity and the `NETWORK` forms are byte swaps; when it is set, the
roles are exchanged.  The `_LE`/`_BE` suffix below names the
configuration. -/

/-- `LXW_UINT16_NETWORK(n)` in the little-endian configuration. -/
def LXW_UINT16_NETWORK_LE (n : Nat) : Nat :=
  (n &&& 0x00FF) <<< 8 ||| (n &&& 0xFF00) >>> 8

/-- `LXW_UINT16_HOST(n)` in the little-endian configuration. -/
def LXW_UINT16_HOST_LE (n : Nat) : Nat := n

/-- `LXW_UINT16_NETWORK(n)` in the `LXW_BIG_ENDIAN` configuration. -/
def LXW_UINT16_NETWORK_BE (n : Nat) : Nat := n

/-- `LXW_UINT16_HOST(n)` in the `LXW_BIG_ENDIAN` configuration. -/
def LXW_UINT16_HOST_BE (n : Nat) : Nat :=
  (n &&& 0x00FF) <<< 8 ||| (n &&& 0xFF00) >>> 8

/-- `LXW_UINT32_NETWORK(n)` in the little-endian configuration. -/
def LXW_UINT32_NETWORK_LE (n : Nat) : Nat :=
  (n &&& 0xFF) <<< 24 ||| (n &&& 0xFF00) <<< 8 |||
    (n &&& 0xFF0000) >>> 8 ||| (n &&& 0xFF000000) >>> 24

/-- `LXW_UINT32_HOST(n)` in the little-endian configuration. -/
def LXW_UINT32_HOST_LE (n : Nat) : Nat := n

/-- `LXW_UINT32_NETWORK(n)` in the `LXW_BIG_ENDIAN` configuration. -/
def LXW_UINT32_NETWORK_BE (n : Nat) : Nat := n

/-- `LXW_UINT32_HOST(n)` in the `LXW_BIG_ENDIAN` configuration. -/
def LXW_UINT32_HOST_BE (n : Nat) : Nat :=
  (n &&& 0xFF) <<< 24 ||| (n &&& 0xFF00) <<< 8 |||
    (n &&& 0xFF0000) >>> 8 ||| (n &&& 0xFF000000) >>> 24

/-- Bits below a `2 ^ k` factor are zero. -/
lemma testBit_mul_pow_lt (a k i : Nat) (h : i < k) :
    (a * 2 ^ k).testBit i = false := by
  rw [← Nat.shiftLeft_eq, Nat.testBit_shiftLeft]
  simp [Nat.not_le.mpr h]

/-- Bits of `a * 2 ^ k` at or above position `k` are the bits of `a`. -/
lemma testBit_mul_pow_add (a k d : Nat) :
    (a * 2 ^ k).testBit (k + d) = a.testBit d := by
  rw [← Nat.shiftLeft_eq, Nat.testBit_shiftLeft]
  simp

/-- Bitwise or of a shifted value with a value below the shift amount is
plain addition. -/
lemma lor_mul_pow_add (a b k : Nat) (hb : b < 2 ^ k) :
    a * 2 ^ k ||| b = a * 2 ^ k + b := by
  apply Nat.eq_of_testBit_eq
  intro i
  rw [Nat.testBit_or]
  rcases Nat.lt_or_ge i k with h | h
  · rw [testBit_mul_pow_lt a k i h, Bool.false_or]
    have h2 : ∀ x : Nat, x.testBit i = (x % 2 ^ k).testBit i := by
      intro x
      rw [Nat.testBit_mod_two_pow]
      simp [h]
    have hmod : (a * 2 ^ k + b) % 2 ^ k = b % 2 ^ k := by
      rw [Nat.add_comm, Nat.add_mul_mod_self_right]
    rw [h2 (a * 2 ^ k + b), hmod, ← h2 b]
  · obtain ⟨d, rfl⟩ := Nat.exists_eq_add_of_le h
    rw [testBit_mul_pow_add]
    have hb' : b.testBit (k + d) = false :=
      Nat.testBit_lt_two_pow
        (lt_of_lt_of_le hb (Nat.pow_le_pow_right (by norm_num) (Nat.le_add_right _ _)))
    rw [hb', Bool.or_false]
    have hdiv : (a * 2 ^ k + b) / 2 ^ k = a := by
      rw [Nat.mul_comm a, Nat.mul_add_div (Nat.two_pow_pos k),
        Nat.div_eq_of_lt hb, Nat.add_zero]
    rw [show (a * 2 ^ k + b).testBit (k + d) = ((a * 2 ^ k + b) >>> k).testBit d from by
      rw [Nat.testBit_shiftRight], Nat.shiftRight_eq_div_pow, hdiv]

/-- Masking with a shifted all-ones block extracts a byte-sized field:
`n &&& ((2 ^ k - 1) <<< j)` is the field of `k` bits of `n` starting at
bit `j`, still in place. -/
lemma and_mask_shift (n j k : Nat) :
    n &&& (2 ^ k - 1) <<< j = n / 2 ^ j % 2 ^ k * 2 ^ j := by
  apply Nat.eq_of_testBit_eq
  intro i
  rw [Nat.testBit_and, Nat.testBit_shiftLeft]
  rcases Nat.lt_or_ge i j with h | h
  · rw [testBit_mul_pow_lt _ j i h]
    simp [Nat.not_le.mpr h]
  · obtain ⟨d, rfl⟩ := Nat.exists_eq_add_of_le h
    rw [testBit_mul_pow_add, Nat.testBit_mod_two_pow, ← Nat.shiftRight_eq_div_pow,
      Nat.testBit_shiftRight]
    simp [Nat.testBit_two_pow_sub_one, Bool.and_comm]

/-- The 16-bit swap expression of common.h, arithmetically: it exchanges
the two bytes of its argument. -/
lemma swap16_eq (n : Nat) :
    (n &&& 0x00FF) <<< 8 ||| (n &&& 0xFF00) >>> 8 = n % 256 * 256 + n / 256 % 256 := by
  have h1 : n &&& 0x00FF = n % 256 := by
    have h := Nat.and_pow_two_sub_one_eq_mod n 8
    norm_num at h
    exact h
  have h2 : n &&& 0xFF00 = n / 256 % 256 * 256 := by
    have h := and_mask_shift n 8 8
    rw [Nat.shiftLeft_eq] at h
    norm_num at h
    exact h
  rw [h1, h2, Nat.shiftLeft_eq, Nat.shiftRight_eq_div_pow]
  have h3 : n / 256 % 256 * 256 / 2 ^ 8 = n / 256 % 256 := by
    norm_num
  rw [h3]
  have h4 : n / 256 % 256 < 2 ^ 8 := Nat.mod_lt _ (by norm_num)
  have h5 := lor_mul_pow_add (n % 256) (n / 256 % 256) 8 h4
  norm_num at h5 ⊢
  exact h5

/-- The 32-bit swap expression of common.h, arithmetically: it reverses
the four bytes of its argument. -/
lemma swap32_eq (n : Nat) :
    (n &&& 0xFF) <<< 24 ||| (n &&& 0xFF00) <<< 8 |||
      (n &&& 0xFF0000) >>> 8 ||| (n &&& 0xFF000000) >>> 24 =
    n % 256 * 16777216 + n / 256 % 256 * 65536 + n / 65536 % 256 * 256 +
      n / 16777216 % 256 := by
  have h1 : n &&& 0xFF = n % 256 := by
    have h := Nat.and_pow_two_sub_one_eq_mod n 8
    norm_num at h
    exact h
  have h2 : n &&& 0xFF00 = n / 256 % 256 * 256 := by
    have h := and_mask_shift n 8 8
    rw [Nat.shiftLeft_eq] at h
    norm_num at h
    exact h
  have h3 : n &&& 0xFF0000 = n / 65536 % 256 * 65536 := by
    have h := and_mask_shift n 16 8
    rw [Nat.shiftLeft_eq] at h
    norm_num at h
    exact h
  have h4 : n &&& 0xFF000000 = n / 16777216 % 256 * 16777216 := by
    have h := and_mask_shift n 24 8
    rw [Nat.shiftLeft_eq] at h
    norm_num at h
    exact h
  rw [h1, h2, h3, h4, Nat.shiftLeft_eq, Nat.shiftLeft_eq, Nat.shiftRight_eq_div_pow,
    Nat.shiftRight_eq_div_pow]
  have t1 : n % 256 * 2 ^ 24 = n % 256 * 16777216 := by norm_num
  have t2 : n / 256 % 256 * 256 * 2 ^ 8 = n / 256 % 256 * 65536 := by
    rw [Nat.mul_assoc]
    norm_num
  have t3 : n / 65536 % 256 * 65536 / 2 ^ 8 = n / 65536 % 256 * 256 := by
    norm_num
    omega
  have t4 : n / 16777216 % 256 * 16777216 / 2 ^ 24 = n / 16777216 % 256 := by
    norm_num
  rw [t1, t2, t3, t4, Nat.lor_assoc, Nat.lor_assoc]
  have b1 : n % 256 < 256 := Nat.mod_lt _ (by norm_num)
  have b2 : n / 256 % 256 < 256 := Nat.mod_lt _ (by norm_num)
  have b3 : n / 65536 % 256 < 256 := Nat.mod_lt _ (by norm_num)
  have b4 : n / 16777216 % 256 < 256 := Nat.mod_lt _ (by norm_num)
  have o1 : n / 65536 % 256 * 256 ||| n / 16777216 % 256 =
      n / 65536 % 256 * 256 + n / 16777216 % 256 := by
    have h := lor_mul_pow_add (n / 65536 % 256) (n / 16777216 % 256) 8 (by norm_num; omega)
    norm_num at h
    exact h
  rw [o1]
  have o2 : n / 256 % 256 * 65536 ||| (n / 65536 % 256 * 256 + n / 16777216 % 256) =
      n / 256 % 256 * 65536 + (n / 65536 % 256 * 256 + n / 16777216 % 256) := by
    have h := lor_mul_pow_add (n / 256 % 256)
      (n / 65536 % 256 * 256 + n / 16777216 % 256) 16 (by norm_num; omega)
    norm_num at h
    exact h
  rw [o2]
  have o3 : n % 256 * 16777216 |||
      (n / 256 % 256 * 65536 + (n / 65536 % 256 * 256 + n / 16777216 % 256)) =
      n % 256 * 16777216 +
        (n / 256 % 256 * 65536 + (n / 65536 % 256 * 256 + n / 16777216 % 256)) := by
    have h := lor_mul_pow_add (n % 256)
      (n / 256 % 256 * 65536 + (n / 65536 % 256 * 256 + n / 16777216 % 256)) 24
      (by norm_num; omega)
    norm_num at h
    exact h
  rw [o3]
  omega

/-! ## Claim C9 -/

/-- C9 counterexample: the claimed round trip
`LXW_UINT16_HOST(LXW_UINT16_NETWORK(n)) == n` fails already at `n = 1`
(a 16-bit value), in both endianness configurations, and likewise for
the 32-bit macros: in each configuration one macro of the pair is the
identity and the other is a byte swap, so their composition is the byte
swap, not the identity. -/
theorem lxw_byte_order_host_network_not_inverse :
    1 < 2 ^ 16 ∧ 1 < 2 ^ 32 ∧
    LXW_UINT16_HOST_LE (LXW_UINT16_NETWORK_LE 1) = 256 ∧
    LXW_UINT16_HOST_LE (LXW_UINT16_NETWORK_LE 1) ≠ 1 ∧
    LXW_UINT16_HOST_BE (LXW_UINT16_NETWORK_BE 1) ≠ 1 ∧
    LXW_UINT32_HOST_LE (LXW_UINT32_NETWORK_LE 1) ≠ 1 ∧
    LXW_UINT32_HOST_BE (LXW_UINT32_NETWORK_BE 1) ≠ 1 := by
  refine ⟨by norm_num, by norm_num, ?_, ?_, ?_, ?_, ?_⟩ <;> decide

/-- C9 amended: each byte-order macro is self-inverse modulo the
machine width: `NETWORK(NETWORK(n)) == n` and `HOST(HOST(n)) == n` for
every 16-bit (resp. 32-bit) value under both the little-endian and the
`LXW_BIG_ENDIAN` configurations.  The cross composition
`HOST(NETWORK(n))` is the byte swap of `n`, not `n` itself. -/
theorem lxw_byte_order_round_trip (m n : Nat) (h16 : m < 2 ^ 16) (h32 : n < 2 ^ 32) :
    LXW_UINT16_NETWORK_LE (LXW_UINT16_NETWORK_LE m) = m ∧
    LXW_UINT16_HOST_LE (LXW_UINT16_HOST_LE m) = m ∧
    LXW_UINT16_NETWORK_BE (LXW_UINT16_NETWORK_BE m) = m ∧
    LXW_UINT16_HOST_BE (LXW_UINT16_HOST_BE m) = m ∧
    LXW_UINT32_NETWORK_LE (LXW_UINT32_NETWORK_LE n) = n ∧
    LXW_UINT32_HOST_LE (LXW_UINT32_HOST_LE n) = n ∧
    LXW_UINT32_NETWORK_BE (LXW_UINT32_NETWORK_BE n) = n ∧
    LXW_UINT32_HOST_BE (LXW_UINT32_HOST_BE n) = n ∧
    LXW_UINT16_HOST_LE (LXW_UINT16_NETWORK_LE m) = m % 256 * 256 + m / 256 ∧
    LXW_UINT16_HOST_BE (LXW_UINT16_NETWORK_BE m) = m % 256 * 256 + m / 256 := by
  have hm : m < 65536 := by norm_num at h16; exact h16
  have hn : n < 4294967296 := by norm_num at h32; exact h32
  have s16 : ∀ x : Nat, LXW_UINT16_NETWORK_LE x = x % 256 * 256 + x / 256 % 256 := by
    intro x
    unfold LXW_UINT16_NETWORK_LE
    exact swap16_eq x
  have s16b : ∀ x : Nat, LXW_UINT16_HOST_BE x = x % 256 * 256 + x / 256 % 256 := by
    intro x
    unfold LXW_UINT16_HOST_BE
    exact swap16_eq x
  have s32 : ∀ x : Nat, LXW_UINT32_NETWORK_LE x =
      x % 256 * 16777216 + x / 256 % 256 * 65536 + x / 65536 % 256 * 256 +
        x / 16777216 % 256 := by
    intro x
    unfold LXW_UINT32_NETWORK_LE
    exact swap32_eq x
  have s32b : ∀ x : Nat, LXW_UINT32_HOST_BE x =
      x % 256 * 16777216 + x / 256 % 256 * 65536 + x / 65536 % 256 * 256 +
        x / 16777216 % 256 := by
    intro x
    unfold LXW_UINT32_HOST_BE
    exact swap32_eq x
  have u1 : n / 65536 = n / 256 / 256 := by
    rw [Nat.div_div_eq_div_mul]
  have u2 : n / 16777216 = n / 256 / 256 / 256 := by
    rw [Nat.div_div_eq_div_mul, Nat.div_div_eq_div_mul]
  have r16 : (m % 256 * 256 + m / 256 % 256) % 256 * 256 +
      (m % 256 * 256 + m / 256 % 256) / 256 % 256 = m := by
    have e16a : (m % 256 * 256 + m / 256 % 256) % 256 = m / 256 % 256 := by omega
    have e16b : (m % 256 * 256 + m / 256 % 256) / 256 % 256 = m % 256 := by omega
    rw [e16a, e16b]
    omega
  have r32 : ∀ S, S = n % 256 * 16777216 + n / 256 % 256 * 65536 +
        n / 65536 % 256 * 256 + n / 16777216 % 256 →
      S % 256 * 16777216 + S / 256 % 256 * 65536 + S / 65536 % 256 * 256 +
        S / 16777216 % 256 = n := by
    intro S hS
    have v1 : S / 65536 = S / 256 / 256 := by
      rw [Nat.div_div_eq_div_mul]
    have v2 : S / 16777216 = S / 256 / 256 / 256 := by
      rw [Nat.div_div_eq_div_mul, Nat.div_div_eq_div_mul]
    rw [u1, u2] at hS
    rw [v1, v2]
    have g0 : S % 256 = n / 256 / 256 / 256 % 256 := by omega
    have g1 : S / 256 % 256 = n / 256 / 256 % 256 := by omega
    have g2 : S / 256 / 256 % 256 = n / 256 % 256 := by omega
    have g3 : S / 256 / 256 / 256 % 256 = n % 256 := by omega
    rw [g0, g1, g2, g3]
    omega
  refine ⟨?_, rfl, rfl, ?_, ?_, rfl, rfl, ?_, ?_, ?_⟩
  · rw [s16, s16]
    exact r16
  · rw [s16b, s16b]
    exact r16
  · rw [s32]
    exact r32 _ (s32 n)
  · rw [s32b]
    exact r32 _ (s32b n)
  · show LXW_UINT16_NETWORK_LE m = m % 256 * 256 + m / 256
    rw [s16]
    omega
  · show LXW_UINT16_HOST_BE m = m % 256 * 256 + m / 256
    rw [s16b]
    omega

/-- Witness for the amended C9 at the concrete 16-bit value `0x0102` and
32-bit value `0x01020304`. -/
theorem lxw_byte_order_round_trip_witness :
    LXW_UINT16_NETWORK_LE (LXW_UINT16_NETWORK_LE 0x0102) = 0x0102 ∧
    LXW_UINT32_HOST_BE (LXW_UINT32_HOST_BE 0x01020304) = 0x01020304 :=
  ⟨(lxw_byte_order_round_trip 0x0102 0x01020304 (by norm_num) (by norm_num)).1,
    (lxw_byte_order_round_trip 0x0102 0x01020304 (by norm_num)
      (by norm_num)).2.2.2.2.2.2.2.1⟩

/-! ## Chart-axis warning guards (common.h lines 300-344)

Each `LXW_WARN_..._AXIS_ONLY(function)` macro opens the body of a chart
axis setter: when the axis is not of the required kind it prints a
warning and returns from the enclosing `void` function before the body
runs.  We model the guarded setter as a combinator taking the would-be
body; the returned `List String` is the warning log (the C function has
no error return at all). -/

/-- A chart axis: the three kind flags the guards test, plus the rest of
the axis state (abstracted, since only its preservation matters). -/
structure lxw_chart_axis (α : Type) where
  is_category : Bool
  is_value : Bool
  is_date : Bool
  state : α

/-- `LXW_WARN_CAT_AXIS_ONLY`: run `body` only on category axes. -/
def lxw_warn_cat_axis_only {α : Type} (fn : String)
    (axis : lxw_chart_axis α) (body : lxw_chart_axis α → lxw_chart_axis α) :
    lxw_chart_axis α × List String :=
  if !axis.is_category then
    (axis, ["[WARNING]: " ++ fn ++ "() is only valid for category axes"])
  else (body axis, [])

/-- `LXW_WARN_VALUE_AXIS_ONLY`: run `body` only on value axes. -/
def lxw_warn_value_axis_only {α : Type} (fn : String)
    (axis : lxw_chart_axis α) (body : lxw_chart_axis α → lxw_chart_axis α) :
    lxw_chart_axis α × List String :=
  if !axis.is_value then
    (axis, ["[WARNING]: " ++ fn ++ "() is only valid for value axes"])
  else (body axis, [])

/-- `LXW_WARN_DATE_AXIS_ONLY`: run `body` only on date axes. -/
def lxw_warn_date_axis_only {α : Type} (fn : String)
    (axis : lxw_chart_axis α) (body : lxw_chart_axis α → lxw_chart_axis α) :
    lxw_chart_axis α × List String :=
  if !axis.is_date then
    (axis, ["[WARNING]: " ++ fn ++ "() is only valid for date axes"])
  else (body axis, [])

/-- `LXW_WARN_CAT_AND_DATE_AXIS_ONLY`: category or date axes. -/
def lxw_warn_cat_and_date_axis_only {α : Type} (fn : String)
    (axis : lxw_chart_axis α) (body : lxw_chart_axis α → lxw_chart_axis α) :
    lxw_chart_axis α × List String :=
  if !axis.is_category && !axis.is_date then
    (axis, ["[WARNING]: " ++ fn ++ "() is only valid for category and date axes"])
  else (body axis, [])

/-- `LXW_WARN_VALUE_AND_DATE_AXIS_ONLY`: value or date axes. -/
def lxw_warn_value_and_date_axis_only {α : Type} (fn : String)
    (axis : lxw_chart_axis α) (body : lxw_chart_axis α → lxw_chart_axis α) :
    lxw_chart_axis α × List String :=
  if !axis.is_value && !axis.is_date then
    (axis, ["[WARNING]: " ++ fn ++ "() is only valid for value and date axes"])
  else (body axis, [])

/-! ## Claim C6 -/

/-- C6: calling an axis-kind-restricted operation on an axis of the
wrong kind logs one warning and is a no-op: the axis (all of its state)
is returned unchanged, whatever the body would have done, and no
`lxw_error` is produced (the result type has no error component, as the
guarded C functions return `void`). -/
theorem lxw_axis_guard_wrong_kind_noop {α : Type} (fn : String)
    (axis : lxw_chart_axis α) (body : lxw_chart_axis α → lxw_chart_axis α) :
    (axis.is_category = false →
      lxw_warn_cat_axis_only fn axis body =
        (axis, ["[WARNING]: " ++ fn ++ "() is only valid for category axes"])) ∧
    (axis.is_value = false →
      lxw_warn_value_axis_only fn axis body =
        (axis, ["[WARNING]: " ++ fn ++ "() is only valid for value axes"])) ∧
    (axis.is_date = false →
      lxw_warn_date_axis_only fn axis body =
        (axis, ["[WARNING]: " ++ fn ++ "() is only valid for date axes"])) ∧
    (axis.is_category = false → axis.is_date = false →
      lxw_warn_cat_and_date_axis_only fn axis body =
        (axis, ["[WARNING]: " ++ fn ++ "() is only valid for category and date axes"])) ∧
    (axis.is_value = false → axis.is_date = false →
      lxw_warn_value_and_date_axis_only fn axis body =
        (axis, ["[WARNING]: " ++ fn ++ "() is only valid for value and date axes"])) := by
  refine ⟨?_, ?_, ?_, ?_, ?_⟩
  · intro h
    simp [lxw_warn_cat_axis_only, h]
  · intro h
    simp [lxw_warn_value_axis_only, h]
  · intro h
    simp [lxw_warn_date_axis_only, h]
  · intro h1 h2
    simp [lxw_warn_cat_and_date_axis_only, h1, h2]
  · intro h1 h2
    simp [lxw_warn_value_and_date_axis_only, h1, h2]

/-- Witness for C6: a concrete non-category, non-value, non-date axis
with a body that would overwrite the state; every guard leaves the axis
untouched and logs the warning. -/
theorem lxw_axis_guard_wrong_kind_noop_witness :
    lxw_warn_cat_axis_only "chart_axis_set_name"
        (lxw_chart_axis.mk false false false (0 : Nat)) (fun a => { a with state := 7 }) =
      (lxw_chart_axis.mk false false false 0,
        ["[WARNING]: chart_axis_set_name() is only valid for category axes"]) ∧
    lxw_warn_value_and_date_axis_only "chart_axis_set_name"
        (lxw_chart_axis.mk false false false (0 : Nat)) (fun a => { a with state := 7 }) =
      (lxw_chart_axis.mk false false false 0,
        ["[WARNING]: chart_axis_set_name() is only valid for value and date axes"]) :=
  ⟨(lxw_axis_guard_wrong_kind_noop "chart_axis_set_name"
      (lxw_chart_axis.mk false false false (0 : Nat)) (fun a => { a with state := 7 })).1 rfl,
    (lxw_axis_guard_wrong_kind_noop "chart_axis_set_name"
      (lxw_chart_axis.mk false false false (0 : Nat))
      (fun a => { a with state := 7 })).2.2.2.2 rfl rfl⟩

/-! ## The worksheet cell grid

worksheet.c is not part of the visible tree; the grid and its bounds
check are modelled from the spec (sections 3, 4.3 and 6):
"CellGrid: ordered map from row index (0 ≤ r < 1,048,576) to Row; Row
is an ordered map from column index (0 ≤ c < 16,384) to Cell.  Both
orderings are by ascending numeric index; duplicate insertion at the
same (row, col) overwrites the prior cell", and "row/col bounds are
validated on every write; out-of-range indices fail with an
index-out-of-range error and the write is discarded". -/

/-- Maximum number of rows (rows are 0 .. 1,048,575). -/
def LXW_ROW_MAX : Nat := 1048576

/-- Maximum number of columns (columns are 0 .. 16,383). -/
def LXW_COL_MAX : Nat := 16384

/-- Modelled from the spec: a row of a worksheet, an ordered sparse map
from column index to cell payload, kept in strictly ascending column
order.  Insertion keeps the order and overwrites an existing column
(last-write-wins). -/
def cellInsert {α : Type} (cells : List (Nat × α)) (col : Nat) (v : α) :
    List (Nat × α) :=
  match cells with
  | [] => [(col, v)]
  | (c, w) :: rest =>
    if col < c then (col, v) :: (c, w) :: rest
    else if col = c then (col, v) :: rest
    else (c, w) :: cellInsert rest col v

/-- Modelled from the spec: the table of rows of a worksheet, an ordered
sparse map from row index to row, kept in strictly ascending row order. -/
def rowInsert {α : Type} (table : List (Nat × List (Nat × α))) (row col : Nat)
    (v : α) : List (Nat × List (Nat × α)) :=
  match table with
  | [] => [(row, cellInsert [] col v)]
  | (r, cells) :: rest =>
    if row < r then (row, cellInsert [] col v) :: (r, cells) :: rest
    else if row = r then (r, cellInsert cells col v) :: rest
    else (r, cells) :: rowInsert rest row col v

/-- Modelled from the spec: a worksheet owns one cell grid.  The cell
payload type is abstract (`α`): the claims proved about the grid do not
depend on what a cell stores. -/
structure lxw_worksheet (α : Type) where
  table : List (Nat × List (Nat × α))

/-- Modelled from the spec: `set_cell(row, col, value)`.  Bounds are
validated first; out-of-range indices fail with
`LXW_ERROR_WORKSHEET_INDEX_OUT_OF_RANGE` and the grid is not touched;
in-range writes insert in order (overwriting any previous cell at the
same coordinates). -/
def worksheet_set_cell {α : Type} (ws : lxw_worksheet α) (row col : Nat)
    (v : α) : lxw_error × lxw_worksheet α :=
  if LXW_ROW_MAX ≤ row ∨ LXW_COL_MAX ≤ col then
    (.LXW_ERROR_WORKSHEET_INDEX_OUT_OF_RANGE, ws)
  else (.LXW_NO_ERROR, ⟨rowInsert ws.table row col v⟩)

/-- Modelled from the spec: `rows_in_order()` yields the rows of the
grid in storage order (which the grid keeps ascending). -/
def rows_in_order {α : Type} (ws : lxw_worksheet α) :
    List (Nat × List (Nat × α)) := ws.table

/-- Modelled from the spec: apply a whole program of `set_cell` calls,
in order, to a worksheet. -/
def worksheet_set_cells {α : Type} (ws : lxw_worksheet α)
    (ops : List (Nat × Nat × α)) : lxw_worksheet α :=
  ops.foldl (fun w op => (worksheet_set_cell w op.1 op.2.1 op.2.2).2) ws

/-- Cell lookup, for stating that failed writes leave cells unset. -/
def worksheet_find_cell {α : Type} (ws : lxw_worksheet α) (row col : Nat) :
    Option α :=
  match ws.table.lookup row with
  | none => none
  | some cells => cells.lookup col

/-! ## Claim C2 -/

/-- C2: a cell write whose row is outside [0, 1048575] or whose column
is outside [0, 16383] fails with `LXW_ERROR_WORKSHEET_INDEX_OUT_OF_RANGE`
and returns the grid exactly as it was (no partial mutation) — even for
indices the C representation types can hold (`lxw_row_t` is `uint32_t`,
`lxw_col_t` is `uint16_t`, so values beyond the limits are
representable). -/
theorem worksheet_set_cell_out_of_range {α : Type} (ws : lxw_worksheet α)
    (row col : Nat) (v : α) (_hrow : row < 2 ^ 32) (_hcol : col < 2 ^ 16)
    (hout : LXW_ROW_MAX ≤ row ∨ LXW_COL_MAX ≤ col) :
    worksheet_set_cell ws row col v =
      (.LXW_ERROR_WORKSHEET_INDEX_OUT_OF_RANGE, ws) ∧
    LXW_ROW_MAX < 2 ^ 32 ∧ LXW_COL_MAX < 2 ^ 16 := by
  refine ⟨?_, by norm_num [LXW_ROW_MAX], by norm_num [LXW_COL_MAX]⟩
  unfold worksheet_set_cell
  rw [if_pos hout]

/-- Witness for C2: writing at row 1048576 (representable in `uint32_t`)
of an empty worksheet fails and leaves the worksheet empty. -/
theorem worksheet_set_cell_out_of_range_witness :
    worksheet_set_cell (lxw_worksheet.mk ([] : List (Nat × List (Nat × Nat))))
        1048576 0 42 =
      (.LXW_ERROR_WORKSHEET_INDEX_OUT_OF_RANGE, lxw_worksheet.mk []) :=
  (worksheet_set_cell_out_of_range (lxw_worksheet.mk []) 1048576 0 42
    (by norm_num) (by norm_num) (Or.inl (by norm_num [LXW_ROW_MAX]))).1

/-! ## Claim C8: ordering of the grid -/

/-- Any element of `cellInsert cells col v` either has key `col` or was
already in `cells`. -/
lemma cellInsert_mem {α : Type} {cells : List (Nat × α)} {col : Nat} {v : α}
    {x : Nat × α} (hx : x ∈ cellInsert cells col v) :
    x.1 = col ∨ x ∈ cells := by
  induction cells with
  | nil =>
    simp [cellInsert] at hx
    simp [hx]
  | cons hd tl ih =>
    obtain ⟨c, w⟩ := hd
    simp only [cellInsert] at hx
    by_cases h1 : col < c
    · rw [if_pos h1] at hx
      simp only [List.mem_cons] at hx
      rcases hx with h | h | h
      · simp [h]
      · exact Or.inr (by simp [h])
      · exact Or.inr (List.mem_cons_of_mem _ h)
    · rw [if_neg h1] at hx
      by_cases h2 : col = c
      · rw [if_pos h2] at hx
        simp only [List.mem_cons] at hx
        rcases hx with h | h
        · simp [h]
        · exact Or.inr (List.mem_cons_of_mem _ h)
      · rw [if_neg h2] at hx
        simp only [List.mem_cons] at hx
        rcases hx with h | h
        · exact Or.inr (by simp [h])
        · rcases ih h with h3 | h3
          · exact Or.inl h3
          · exact Or.inr (List.mem_cons_of_mem _ h3)

/-- `cellInsert` preserves strictly ascending column order. -/
lemma cellInsert_pairwise {α : Type} {cells : List (Nat × α)} {col : Nat}
    {v : α} (h : cells.Pairwise (fun a b => a.1 < b.1)) :
    (cellInsert cells col v).Pairwise (fun a b => a.1 < b.1) := by
  induction cells with
  | nil => simp [cellInsert]
  | cons hd tl ih =>
    obtain ⟨c, w⟩ := hd
    rw [List.pairwise_cons] at h
    obtain ⟨hhd, htl⟩ := h
    simp only [cellInsert]
    by_cases h1 : col < c
    · rw [if_pos h1]
      refine List.Pairwise.cons ?_ (List.Pairwise.cons hhd htl)
      intro x hx
      simp only [List.mem_cons] at hx
      rcases hx with h | h
      · rw [h]
        exact h1
      · exact lt_trans h1 (hhd x h)
    · rw [if_neg h1]
      by_cases h2 : col = c
      · rw [if_pos h2]
        refine List.Pairwise.cons ?_ htl
        intro x hx
        rw [h2]
        exact hhd x hx
      · rw [if_neg h2]
        refine List.Pairwise.cons ?_ (ih htl)
        intro x hx
        rcases cellInsert_mem hx with h3 | h3
        · rw [h3]
          omega
        · exact hhd x h3

/-- Any element of `rowInsert table row col v` either has key `row` or
was already a row of `table`, possibly with its cells updated by
`cellInsert`. -/
lemma rowInsert_mem {α : Type} {table : List (Nat × List (Nat × α))}
    {row col : Nat} {v : α} {x : Nat × List (Nat × α)}
    (hx : x ∈ rowInsert table row col v) :
    x.1 = row ∨ x ∈ table ∨
      ∃ cells, (x.1, cells) ∈ table ∧ x.2 = cellInsert cells col v := by
  induction table with
  | nil =>
    simp [rowInsert] at hx
    simp [hx]
  | cons hd tl ih =>
    obtain ⟨r, cells⟩ := hd
    simp only [rowInsert] at hx
    by_cases h1 : row < r
    · rw [if_pos h1] at hx
      simp only [List.mem_cons] at hx
      rcases hx with h | h | h
      · simp [h]
      · exact Or.inr (Or.inl (by simp [h]))
      · exact Or.inr (Or.inl (List.mem_cons_of_mem _ h))
    · rw [if_neg h1] at hx
      by_cases h2 : row = r
      · rw [if_pos h2] at hx
        simp only [List.mem_cons] at hx
        rcases hx with h | h
        · refine Or.inr (Or.inr ⟨cells, ?_, ?_⟩)
          · rw [h]
            simp
          · rw [h]
        · exact Or.inr (Or.inl (List.mem_cons_of_mem _ h))
      · rw [if_neg h2] at hx
        simp only [List.mem_cons] at hx
        rcases hx with h | h
        · exact Or.inr (Or.inl (by simp [h]))
        · rcases ih h with h3 | h3 | h3
          · exact Or.inl h3
          · exact Or.inr (Or.inl (List.mem_cons_of_mem _ h3))
          · obtain ⟨cs, hmem, hcs⟩ := h3
            exact Or.inr (Or.inr ⟨cs, List.mem_cons_of_mem _ hmem, hcs⟩)

/-- `rowInsert` preserves strictly ascending row order. -/
lemma rowInsert_pairwise {α : Type} {table : List (Nat × List (Nat × α))}
    {row col : Nat} {v : α}
    (h : table.Pairwise (fun a b => a.1 < b.1)) :
    (rowInsert table row col v).Pairwise (fun a b => a.1 < b.1) := by
  induction table with
  | nil => simp [rowInsert]
  | cons hd tl ih =>
    obtain ⟨r, cells⟩ := hd
    rw [List.pairwise_cons] at h
    obtain ⟨hhd, htl⟩ := h
    simp only [rowInsert]
    by_cases h1 : row < r
    · rw [if_pos h1]
      refine List.Pairwise.cons ?_ (List.Pairwise.cons hhd htl)
      intro x hx
      simp only [List.mem_cons] at hx
      rcases hx with h | h
      · rw [h]
        exact h1
      · exact lt_trans h1 (hhd x h)
    · rw [if_neg h1]
      by_cases h2 : row = r
      · rw [if_pos h2]
        exact List.Pairwise.cons hhd htl
      · rw [if_neg h2]
        refine List.Pairwise.cons ?_ (ih htl)
        intro x hx
        rcases rowInsert_mem hx with h3 | h3 | h3
        · rw [h3]
          omega
        · exact hhd x h3
        · obtain ⟨cs, hmem, _⟩ := h3
          exact hhd (x.1, cs) hmem

/-- `rowInsert` keeps every row internally sorted by column. -/
lemma rowInsert_cells_pairwise {α : Type} {table : List (Nat × List (Nat × α))}
    {row col : Nat} {v : α} :
    (∀ p ∈ table, p.2.Pairwise (fun a b : Nat × α => a.1 < b.1)) →
    ∀ p ∈ rowInsert table row col v,
      p.2.Pairwise (fun a b : Nat × α => a.1 < b.1) := by
  induction table with
  | nil =>
    intro _ p hp
    simp [rowInsert] at hp
    rw [hp]
    exact cellInsert_pairwise List.Pairwise.nil
  | cons hd tl ih =>
    obtain ⟨r, cells⟩ := hd
    intro h p hp
    simp only [rowInsert] at hp
    by_cases hc1 : row < r
    · rw [if_pos hc1] at hp
      simp only [List.mem_cons] at hp
      rcases hp with hh | hh | hh
      · rw [hh]
        exact cellInsert_pairwise List.Pairwise.nil
      · rw [hh]
        exact h (r, cells) (by simp)
      · exact h p (List.mem_cons_of_mem _ hh)
    · rw [if_neg hc1] at hp
      by_cases hc2 : row = r
      · rw [if_pos hc2] at hp
        simp only [List.mem_cons] at hp
        rcases hp with hh | hh
        · rw [hh]
          exact cellInsert_pairwise (h (r, cells) (by simp))
        · exact h p (List.mem_cons_of_mem _ hh)
      · rw [if_neg hc2] at hp
        simp only [List.mem_cons] at hp
        rcases hp with hh | hh
        · rw [hh]
          exact h (r, cells) (by simp)
        · exact ih (fun q hq => h q (List.mem_cons_of_mem _ hq)) p hh

/-- One `set_cell` call preserves both orderings. -/
lemma worksheet_set_cell_ordered {α : Type} {ws : lxw_worksheet α}
    {row col : Nat} {v : α}
    (h1 : ws.table.Pairwise (fun a b => a.1 < b.1))
    (h2 : ∀ p ∈ ws.table, p.2.Pairwise (fun a b : Nat × α => a.1 < b.1)) :
    ((worksheet_set_cell ws row col v).2.table.Pairwise
        (fun a b => a.1 < b.1)) ∧
      ∀ p ∈ (worksheet_set_cell ws row col v).2.table,
        p.2.Pairwise (fun a b : Nat × α => a.1 < b.1) := by
  unfold worksheet_set_cell
  by_cases h : LXW_ROW_MAX ≤ row ∨ LXW_COL_MAX ≤ col
  · rw [if_pos h]
    exact ⟨h1, h2⟩
  · rw [if_neg h]
    exact ⟨rowInsert_pairwise h1, rowInsert_cells_pairwise h2⟩

/-- C8: after any sequence of `set_cell` calls, in any insertion order,
iterating the grid (`rows_in_order`) yields rows in strictly ascending
row-index order and, within each row, cells in strictly ascending
column-index order. -/
theorem rows_in_order_sorted {α : Type} (ops : List (Nat × Nat × α)) :
    ((rows_in_order (worksheet_set_cells (lxw_worksheet.mk []) ops)).Pairwise
        (fun a b => a.1 < b.1)) ∧
      ∀ p ∈ rows_in_order (worksheet_set_cells (lxw_worksheet.mk []) ops),
        p.2.Pairwise (fun a b : Nat × α => a.1 < b.1) := by
  suffices hgen : ∀ (ws : lxw_worksheet α),
      ws.table.Pairwise (fun a b => a.1 < b.1) →
      (∀ p ∈ ws.table, p.2.Pairwise (fun a b : Nat × α => a.1 < b.1)) →
      ((worksheet_set_cells ws ops).table.Pairwise (fun a b => a.1 < b.1)) ∧
        ∀ p ∈ (worksheet_set_cells ws ops).table,
          p.2.Pairwise (fun a b : Nat × α => a.1 < b.1) by
    exact hgen (lxw_worksheet.mk []) (by simp) (by simp)
  induction ops with
  | nil =>
    intro ws h1 h2
    exact ⟨h1, h2⟩
  | cons op rest ih =>
    intro ws h1 h2
    have step := @worksheet_set_cell_ordered α ws op.1 op.2.1 op.2.2 h1 h2
    exact ih _ step.1 step.2

/-- Witness for C8 at a concrete out-of-order program: rows inserted as
5, 1, 1, 0 come out as 0, 1, 5 with sorted columns. -/
theorem rows_in_order_sorted_witness :
    ((rows_in_order (worksheet_set_cells (lxw_worksheet.mk [])
        [(5, 2, 10), (1, 7, 11), (1, 3, 12), (0, 0, 13)])).Pairwise
      (fun a b => a.1 < b.1)) :=
  (rows_in_order_sorted [(5, 2, 10), (1, 7, 11), (1, 3, 12), (0, 0, 13)]).1

/-! ## The shared-string table

shared_strings.c is not part of the visible tree; the table is modelled
from the spec (sections 3 and 4.1): "unique string → stable index
(first-seen order), plus a running total-occurrence counter"; "intern
is deterministic; rejects strings exceeding the maximum cell-string
length (32,767 characters) with a length-exceeded error; no deletion
operation exists — the table only grows". -/

/-- Maximum cell-string length (32,767 characters). -/
def LXW_STR_MAX : Nat := 32767

/-- Modelled from the spec: the shared-string table.  `strings` holds
the distinct interned strings in first-seen order, so the stable index
of a string is its position; `string_count` counts every successful
intern call (the "total" of the shared-strings part header, versus the
"unique" count `strings.length`). -/
structure lxw_sst where
  strings : List String
  string_count : Nat

/-- The empty shared-string table a workbook starts with. -/
def lxw_sst_empty : lxw_sst := ⟨[], 0⟩

/-- Position of the first occurrence of `s` in `l`, if any. -/
def sstFind (l : List String) (s : String) : Option Nat :=
  match l with
  | [] => none
  | a :: rest => if a = s then some 0 else (sstFind rest s).map (· + 1)

/-- Modelled from the spec: `intern(value) -> index`.  Returns the error
code, the assigned stable index and the updated table: a too-long string
is rejected with `LXW_ERROR_MAX_STRING_LENGTH_EXCEEDED` and the table is
unchanged; a known string keeps its first-seen index; a new string is
appended and receives the next index. -/
def sst_intern (t : lxw_sst) (s : String) : lxw_error × Nat × lxw_sst :=
  if LXW_STR_MAX < s.length then (.LXW_ERROR_MAX_STRING_LENGTH_EXCEEDED, 0, t)
  else
    match sstFind t.strings s with
    | some i => (.LXW_NO_ERROR, i, ⟨t.strings, t.string_count + 1⟩)
    | none => (.LXW_NO_ERROR, t.strings.length,
        ⟨t.strings ++ [s], t.string_count + 1⟩)

/-- `unique_count()` of the table. -/
def sst_unique_count (t : lxw_sst) : Nat := t.strings.length

/-- `total_count()` of the table. -/
def sst_total_count (t : lxw_sst) : Nat := t.string_count

/-- The index currently assigned to a string, if it has been interned. -/
def sst_lookup (t : lxw_sst) (s : String) : Option Nat := sstFind t.strings s

/-- Run a sequence of intern calls, collecting the returned indices and
the final table. -/
def sst_run (t : lxw_sst) : List String → List Nat × lxw_sst
  | [] => ([], t)
  | s :: ss =>
    ((sst_intern t s).2.1 :: (sst_run (sst_intern t s).2.2 ss).1,
      (sst_run (sst_intern t s).2.2 ss).2)

/-- `sstFind` finds a present element. -/
lemma sstFind_isSome_of_mem {l : List String} {s : String} (h : s ∈ l) :
    (sstFind l s).isSome := by
  induction l with
  | nil => simp at h
  | cons a rest ih =>
    simp only [sstFind]
    by_cases ha : a = s
    · rw [if_pos ha]
      rfl
    · rw [if_neg ha]
      simp only [List.mem_cons] at h
      rcases h with h | h
      · exact absurd h.symm ha
      · have := ih h
        rcases hfind : sstFind rest s with _ | i
        · rw [hfind] at this
          simp at this
        · simp [hfind]

/-- `sstFind` returns `none` exactly on absent elements. -/
lemma sstFind_eq_none_iff {l : List String} {s : String} :
    sstFind l s = none ↔ s ∉ l := by
  constructor
  · intro h hmem
    have := sstFind_isSome_of_mem hmem
    rw [h] at this
    simp at this
  · intro h
    induction l with
    | nil => rfl
    | cons a rest ih =>
      simp only [List.mem_cons, not_or] at h
      have hne : ¬ a = s := fun ha => h.1 ha.symm
      simp only [sstFind, if_neg hne]
      rw [ih h.2]
      rfl

/-- A found index is preserved by appending to the list. -/
lemma sstFind_append_of_some {l l2 : List String} {s : String} {i : Nat}
    (h : sstFind l s = some i) : sstFind (l ++ l2) s = some i := by
  induction l generalizing i with
  | nil => exact Option.noConfusion h
  | cons a rest ih =>
    simp only [List.cons_append, sstFind] at h ⊢
    by_cases ha : a = s
    · rw [if_pos ha] at h ⊢
      exact h
    · rw [if_neg ha] at h ⊢
      rcases hfind : sstFind rest s with _ | j
      · rw [hfind] at h
        exact Option.noConfusion h
      · rw [hfind] at h
        simp only [Option.map_some'] at h
        simp only [List.append_eq]
        rw [ih hfind]
        simp only [Option.map_some']
        exact h

/-- Appending a fresh element puts it at position `l.length`. -/
lemma sstFind_append_self {l : List String} {s : String}
    (h : sstFind l s = none) : sstFind (l ++ [s]) s = some l.length := by
  induction l with
  | nil => simp [sstFind]
  | cons a rest ih =>
    by_cases ha : a = s
    · simp only [sstFind, if_pos ha] at h
      exact Option.noConfusion h
    · have hrest : sstFind rest s = none := by
        simp only [sstFind, if_neg ha] at h
        rcases hfind : sstFind rest s with _ | j
        · rfl
        · rw [hfind] at h
          exact Option.noConfusion h
      rw [List.cons_append]
      simp only [sstFind, if_neg ha]
      rw [ih hrest]
      simp

/-- A found index points at the string searched for. -/
lemma sstFind_getD {l : List String} {s : String} {i : Nat}
    (h : sstFind l s = some i) : l.getD i "" = s := by
  induction l generalizing i with
  | nil => exact Option.noConfusion h
  | cons a rest ih =>
    simp only [sstFind] at h
    by_cases ha : a = s
    · rw [if_pos ha] at h
      simp only [Option.some.injEq] at h
      rw [← h]
      simpa using ha
    · rw [if_neg ha] at h
      rcases hfind : sstFind rest s with _ | j
      · rw [hfind] at h
        exact Option.noConfusion h
      · rw [hfind] at h
        simp only [Option.map_some', Option.some.injEq] at h
        rw [← h]
        simpa using ih hfind

/-- A found string is a member of the list. -/
lemma sstFind_some_mem {l : List String} {s : String} {i : Nat}
    (h : sstFind l s = some i) : s ∈ l := by
  induction l generalizing i with
  | nil => exact Option.noConfusion h
  | cons a rest ih =>
    simp only [sstFind] at h
    by_cases ha : a = s
    · rw [ha]
      simp
    · rw [if_neg ha] at h
      rcases hfind : sstFind rest s with _ | j
      · rw [hfind] at h
        exact Option.noConfusion h
      · exact List.mem_cons_of_mem _ (ih hfind)

/-- What one valid `intern` call does: no error, the total count grows
by one, the string is found at the returned index afterwards, and the
string list either stays or grows by exactly the new string. -/
lemma sst_intern_cases (t : lxw_sst) (s : String) (h : s.length ≤ LXW_STR_MAX) :
    (sst_intern t s).1 = .LXW_NO_ERROR ∧
    (sst_intern t s).2.2.string_count = t.string_count + 1 ∧
    sstFind (sst_intern t s).2.2.strings s = some (sst_intern t s).2.1 ∧
    ((sst_intern t s).2.2.strings = t.strings ∨
      (sst_intern t s).2.2.strings = t.strings ++ [s]) := by
  unfold sst_intern
  rw [if_neg (by omega : ¬ LXW_STR_MAX < s.length)]
  rcases hfind : sstFind t.strings s with _ | i
  · simp [hfind, sstFind_append_self hfind]
  · simp [hfind]

/-- An intern call never removes strings: the new list extends the old. -/
lemma sst_intern_strings_prefix (t : lxw_sst) (s : String) :
    ∃ l, (sst_intern t s).2.2.strings = t.strings ++ l := by
  unfold sst_intern
  by_cases h : LXW_STR_MAX < s.length
  · rw [if_pos h]
    exact ⟨[], by simp⟩
  · rw [if_neg h]
    rcases hfind : sstFind t.strings s with _ | i
    · simp only [hfind]
      exact ⟨[s], rfl⟩
    · simp only [hfind]
      exact ⟨[], by simp⟩

/-- An intern call keeps the string list duplicate-free. -/
lemma sst_intern_nodup (t : lxw_sst) (s : String) (hn : t.strings.Nodup) :
    (sst_intern t s).2.2.strings.Nodup := by
  unfold sst_intern
  by_cases h : LXW_STR_MAX < s.length
  · rw [if_pos h]
    exact hn
  · rw [if_neg h]
    rcases hfind : sstFind t.strings s with _ | i
    · simp only [hfind]
      have hs : s ∉ t.strings := sstFind_eq_none_iff.mp hfind
      simp [List.nodup_append, hn, hs]
    · simp only [hfind]
      exact hn

/-- Membership in the string list after a valid intern call. -/
lemma sst_intern_mem (t : lxw_sst) (s x : String) (h : s.length ≤ LXW_STR_MAX) :
    x ∈ (sst_intern t s).2.2.strings ↔ x ∈ t.strings ∨ x = s := by
  unfold sst_intern
  rw [if_neg (by omega : ¬ LXW_STR_MAX < s.length)]
  rcases hfind : sstFind t.strings s with _ | i
  · simp only [hfind]
    simp
  · simp only [hfind]
    constructor
    · intro hx
      exact Or.inl hx
    · intro hx
      rcases hx with hx | hx
      · exact hx
      · rw [hx]
        exact sstFind_some_mem hfind

/-- A whole run never removes strings. -/
lemma sst_run_strings_prefix (ss : List String) (t : lxw_sst) :
    ∃ l, (sst_run t ss).2.strings = t.strings ++ l := by
  induction ss generalizing t with
  | nil => exact ⟨[], by simp [sst_run]⟩
  | cons s ss ih =>
    obtain ⟨l1, h1⟩ := ih (sst_intern t s).2.2
    obtain ⟨l0, h0⟩ := sst_intern_strings_prefix t s
    refine ⟨l0 ++ l1, ?_⟩
    simp only [sst_run]
    rw [h1, h0, List.append_assoc]

/-- A run of valid interns increments the total count once per call. -/
lemma sst_run_count (ss : List String) (t : lxw_sst)
    (h : ∀ s ∈ ss, s.length ≤ LXW_STR_MAX) :
    (sst_run t ss).2.string_count = t.string_count + ss.length := by
  induction ss generalizing t with
  | nil => simp [sst_run]
  | cons s ss ih =>
    have hv : s.length ≤ LXW_STR_MAX := h s (by simp)
    have hc := (sst_intern_cases t s hv).2.1
    simp only [sst_run]
    rw [ih (sst_intern t s).2.2 (fun x hx => h x (List.mem_cons_of_mem _ hx)), hc]
    simp [List.length_cons]
    omega

/-- A run keeps the string list duplicate-free. -/
lemma sst_run_nodup (ss : List String) (t : lxw_sst) (hn : t.strings.Nodup) :
    (sst_run t ss).2.strings.Nodup := by
  induction ss generalizing t with
  | nil => exact hn
  | cons s ss ih =>
    simp only [sst_run]
    exact ih (sst_intern t s).2.2 (sst_intern_nodup t s hn)

/-- Membership in the string list after a run of valid interns. -/
lemma sst_run_mem (ss : List String) (t : lxw_sst) (x : String)
    (h : ∀ s ∈ ss, s.length ≤ LXW_STR_MAX) :
    x ∈ (sst_run t ss).2.strings ↔ x ∈ t.strings ∨ x ∈ ss := by
  induction ss generalizing t with
  | nil => simp [sst_run]
  | cons s ss ih =>
    have hv : s.length ≤ LXW_STR_MAX := h s (by simp)
    simp only [sst_run]
    rw [ih (sst_intern t s).2.2 (fun y hy => h y (List.mem_cons_of_mem _ hy)),
      sst_intern_mem t s x hv]
    simp only [List.mem_cons]
    constructor
    · intro hx
      rcases hx with (hx | hx) | hx
      · exact Or.inl hx
      · exact Or.inr (Or.inl hx)
      · exact Or.inr (Or.inr hx)
    · intro hx
      rcases hx with hx | hx | hx
      · exact Or.inl (Or.inl hx)
      · exact Or.inl (Or.inr hx)
      · exact Or.inr hx

/-- Key invariant: in a run of valid interns, the string of the i-th
call is found, in the final table, exactly at the index the i-th call
returned. -/
lemma sst_run_find (ss : List String) (t : lxw_sst)
    (h : ∀ s ∈ ss, s.length ≤ LXW_STR_MAX) :
    ∀ i < ss.length,
      sstFind (sst_run t ss).2.strings (ss.getD i "") =
        some ((sst_run t ss).1.getD i 0) := by
  induction ss generalizing t with
  | nil =>
    intro i hi
    simp at hi
  | cons s ss ih =>
    intro i hi
    match i with
    | 0 =>
      have hv : s.length ≤ LXW_STR_MAX := h s (by simp)
      have hfound := (sst_intern_cases t s hv).2.2.1
      obtain ⟨l, hl⟩ := sst_run_strings_prefix ss (sst_intern t s).2.2
      simp only [sst_run, List.getD_cons_zero]
      rw [hl]
      exact sstFind_append_of_some hfound
    | Nat.succ j =>
      have hv : ∀ x ∈ ss, x.length ≤ LXW_STR_MAX :=
        fun x hx => h x (List.mem_cons_of_mem _ hx)
      simp only [sst_run, List.getD_cons_succ]
      exact ih (sst_intern t s).2.2 hv j (by simpa using hi)

/-! ## Claim C7 -/

/-- C7: over any sequence of intern calls (of legal length) starting
from the empty table: byte-equal strings receive equal indices and
byte-unequal strings receive different indices (the iff below); the
final `unique_count` is the number of distinct strings interned; the
final `total_count` is the number of intern calls; and an index once
assigned keeps pointing at its string under any further intern calls
(never reused or reordered). -/
theorem sst_intern_spec (ss : List String)
    (h : ∀ s ∈ ss, s.length ≤ LXW_STR_MAX) :
    (∀ i j, i < ss.length → j < ss.length →
      (ss.getD i "" = ss.getD j "" ↔
        (sst_run lxw_sst_empty ss).1.getD i 0 =
          (sst_run lxw_sst_empty ss).1.getD j 0)) ∧
    sst_unique_count (sst_run lxw_sst_empty ss).2 = ss.dedup.length ∧
    sst_total_count (sst_run lxw_sst_empty ss).2 = ss.length ∧
    (∀ (more : List String) (s : String) (i : Nat),
      sst_lookup (sst_run lxw_sst_empty ss).2 s = some i →
      sst_lookup (sst_run (sst_run lxw_sst_empty ss).2 more).2 s = some i) := by
  refine ⟨?_, ?_, ?_, ?_⟩
  · intro i j hi hj
    have fi := sst_run_find ss lxw_sst_empty h i hi
    have fj := sst_run_find ss lxw_sst_empty h j hj
    constructor
    · intro hs
      rw [hs] at fi
      exact Option.some.inj (fi.symm.trans fj)
    · intro hidx
      have gi := sstFind_getD fi
      have gj := sstFind_getD fj
      rw [← gi, ← gj, hidx]
  · have hn := sst_run_nodup ss lxw_sst_empty (by simp [lxw_sst_empty])
    have hm : ∀ x, x ∈ (sst_run lxw_sst_empty ss).2.strings ↔ x ∈ ss := by
      intro x
      rw [sst_run_mem ss lxw_sst_empty x h]
      simp [lxw_sst_empty]
    have hfs : (sst_run lxw_sst_empty ss).2.strings.toFinset = ss.dedup.toFinset := by
      apply Finset.ext
      intro x
      simp only [List.mem_toFinset, List.mem_dedup]
      exact hm x
    unfold sst_unique_count
    calc (sst_run lxw_sst_empty ss).2.strings.length
        = (sst_run lxw_sst_empty ss).2.strings.toFinset.card :=
          (List.toFinset_card_of_nodup hn).symm
      _ = ss.dedup.toFinset.card := by rw [hfs]
      _ = ss.dedup.length := List.toFinset_card_of_nodup (List.nodup_dedup ss)
  · unfold sst_total_count
    rw [sst_run_count ss lxw_sst_empty h]
    simp [lxw_sst_empty]
  · intro more s i hfound
    obtain ⟨l, hl⟩ := sst_run_strings_prefix more (sst_run lxw_sst_empty ss).2
    unfold sst_lookup at hfound ⊢
    rw [hl]
    exact sstFind_append_of_some hfound

/-- Witness for C7 on the concrete run "Hello", "World", "Hello": one
duplicate, so 2 unique strings and 3 total interns. -/
theorem sst_intern_spec_witness :
    sst_unique_count (sst_run lxw_sst_empty ["Hello", "World", "Hello"]).2 =
      ["Hello", "World", "Hello"].dedup.length ∧
    sst_total_count (sst_run lxw_sst_empty ["Hello", "World", "Hello"]).2 = 3 :=
  ⟨(sst_intern_spec ["Hello", "World", "Hello"] (by decide)).2.1,
    (sst_intern_spec ["Hello", "World", "Hello"] (by decide)).2.2.1⟩

/-! ## Writing string cells (claim C3)

Modelled from the spec (sections 4.1, 6 and 8): a string cell write
validates the cell coordinates, then the string length against the
32,767-character limit, and only then interns the string and stores the
returned index in the cell; on a length violation the call fails with
the max-string-length error and neither the grid nor the string table
changes (no silent truncation). -/

/-- Modelled from the spec: `worksheet_write_string`.  Cells store the
stable string-table index, never the string bytes. -/
def worksheet_write_string (ws : lxw_worksheet Nat) (t : lxw_sst)
    (row col : Nat) (s : String) : lxw_error × lxw_worksheet Nat × lxw_sst :=
  if LXW_ROW_MAX ≤ row ∨ LXW_COL_MAX ≤ col then
    (.LXW_ERROR_WORKSHEET_INDEX_OUT_OF_RANGE, ws, t)
  else if LXW_STR_MAX < s.length then
    (.LXW_ERROR_MAX_STRING_LENGTH_EXCEEDED, ws, t)
  else
    (.LXW_NO_ERROR, (worksheet_set_cell ws row col (sst_intern t s).2.1).2,
      (sst_intern t s).2.2)

/-- C3: writing a string longer than 32,767 characters to any valid cell
fails with `LXW_ERROR_MAX_STRING_LENGTH_EXCEEDED`; the worksheet and the
string table are returned unchanged (nothing is truncated and interned),
so the target cell holds exactly what it held before — in particular it
remains unset if it was unset.  Interning such a string directly fails
with the same error and leaves the table unchanged. -/
theorem worksheet_write_string_too_long (ws : lxw_worksheet Nat) (t : lxw_sst)
    (row col : Nat) (s : String) (hrow : row < LXW_ROW_MAX)
    (hcol : col < LXW_COL_MAX) (hs : LXW_STR_MAX < s.length) :
    worksheet_write_string ws t row col s =
      (.LXW_ERROR_MAX_STRING_LENGTH_EXCEEDED, ws, t) ∧
    worksheet_find_cell (worksheet_write_string ws t row col s).2.1 row col =
      worksheet_find_cell ws row col ∧
    (sst_intern t s).1 = .LXW_ERROR_MAX_STRING_LENGTH_EXCEEDED ∧
    (sst_intern t s).2.2 = t := by
  have h1 : ¬ (LXW_ROW_MAX ≤ row ∨ LXW_COL_MAX ≤ col) := by
    rintro (hc | hc)
    · exact absurd hc (not_le.mpr hrow)
    · exact absurd hc (not_le.mpr hcol)
  refine ⟨?_, ?_, ?_, ?_⟩
  · unfold worksheet_write_string
    rw [if_neg h1, if_pos hs]
  · unfold worksheet_write_string
    rw [if_neg h1, if_pos hs]
  · unfold sst_intern
    rw [if_pos hs]
  · unfold sst_intern
    rw [if_pos hs]

/-- Witness for C3: a 32,768-character string is rejected at cell (0,0)
of an empty worksheet with an empty string table. -/
theorem worksheet_write_string_too_long_witness :
    worksheet_write_string (lxw_worksheet.mk []) lxw_sst_empty 0 0
        (String.mk (List.replicate 32768 'a')) =
      (.LXW_ERROR_MAX_STRING_LENGTH_EXCEEDED, lxw_worksheet.mk [],
        lxw_sst_empty) :=
  (worksheet_write_string_too_long (lxw_worksheet.mk []) lxw_sst_empty 0 0
    (String.mk (List.replicate 32768 'a'))
    (by norm_num [LXW_ROW_MAX]) (by norm_num [LXW_COL_MAX])
    (by rw [show (String.mk (List.replicate 32768 'a')).length =
          (List.replicate 32768 'a').length from rfl, List.length_replicate]
        norm_num [LXW_STR_MAX])).1

/-! ## Worksheet names (claim C4)

workbook.c is not part of the visible tree; the validation is modelled
from the spec (section 3: "unique, case-insensitive, ≤31-character
names; duplicates and reserved characters rejected; cannot start/end
with apostrophe") with the error codes and the 31-character limit
(`LXW_SHEETNAME_MAX`) that common.h declares. -/

/-- Excel sheetname max of 31 chars (common.h line 189). -/
def LXW_SHEETNAME_MAX : Nat := 31

/-- The reserved characters a sheet name may not contain (the last one
is the backslash, written by code point). -/
def lxw_sheetname_invalid_chars : List Char :=
  ['[', ']', ':', '*', '?', '/', Char.ofNat 92]

/-- The apostrophe character, written by code point. -/
def lxw_apostrophe : Char := Char.ofNat 39

/-- Case-folded form of a name, for the case-insensitive uniqueness
check (the C code compares names with `lxw_strcasecmp`). -/
def lxw_lowercase (name : String) : List Char := name.data.map Char.toLower

/-- Modelled from the spec: a workbook, reduced to its ordered sequence
of worksheet names (the part sheet-name validation acts on). -/
structure lxw_workbook where
  worksheet_names : List String

/-- Modelled from the spec: sheet-name validation, in the order the
claim lists the rules: length, reserved characters, leading/trailing
apostrophe, case-insensitive uniqueness. -/
def lxw_workbook_validate_sheet_name (wb : lxw_workbook) (name : String) :
    lxw_error :=
  if LXW_SHEETNAME_MAX < name.length then .LXW_ERROR_SHEETNAME_LENGTH_EXCEEDED
  else if name.data.any (fun c => lxw_sheetname_invalid_chars.contains c) then
    .LXW_ERROR_INVALID_SHEETNAME_CHARACTER
  else if name.data.head? = some lxw_apostrophe ∨
      name.data.getLast? = some lxw_apostrophe then
    .LXW_ERROR_SHEETNAME_START_END_APOSTROPHE
  else if wb.worksheet_names.any (fun n2 => lxw_lowercase n2 == lxw_lowercase name) then
    .LXW_ERROR_SHEETNAME_ALREADY_USED
  else .LXW_NO_ERROR

/-- Modelled from the spec: adding a worksheet appends its name iff
validation passes; otherwise the workbook is unchanged and the
validation error is returned. -/
def workbook_add_worksheet (wb : lxw_workbook) (name : String) :
    lxw_error × lxw_workbook :=
  match lxw_workbook_validate_sheet_name wb name with
  | .LXW_NO_ERROR => (.LXW_NO_ERROR, ⟨wb.worksheet_names ++ [name]⟩)
  | e => (e, wb)

/-- C4: each invalid sheet name is rejected with its specific error —
over-long names with `LXW_ERROR_SHEETNAME_LENGTH_EXCEEDED`, names with a
reserved character with `LXW_ERROR_INVALID_SHEETNAME_CHARACTER`, names
starting or ending with an apostrophe with
`LXW_ERROR_SHEETNAME_START_END_APOSTROPHE`, case-insensitive duplicates
with `LXW_ERROR_SHEETNAME_ALREADY_USED` (earlier rules take precedence)
— and on every rejection the workbook's sheet sequence is exactly what
it was before the call. -/
theorem workbook_add_worksheet_rejections (wb : lxw_workbook) (name : String) :
    (LXW_SHEETNAME_MAX < name.length →
      workbook_add_worksheet wb name =
        (.LXW_ERROR_SHEETNAME_LENGTH_EXCEEDED, wb)) ∧
    (name.length ≤ LXW_SHEETNAME_MAX →
      name.data.any (fun c => lxw_sheetname_invalid_chars.contains c) = true →
      workbook_add_worksheet wb name =
        (.LXW_ERROR_INVALID_SHEETNAME_CHARACTER, wb)) ∧
    (name.length ≤ LXW_SHEETNAME_MAX →
      name.data.any (fun c => lxw_sheetname_invalid_chars.contains c) = false →
      (name.data.head? = some lxw_apostrophe ∨
        name.data.getLast? = some lxw_apostrophe) →
      workbook_add_worksheet wb name =
        (.LXW_ERROR_SHEETNAME_START_END_APOSTROPHE, wb)) ∧
    (name.length ≤ LXW_SHEETNAME_MAX →
      name.data.any (fun c => lxw_sheetname_invalid_chars.contains c) = false →
      ¬ (name.data.head? = some lxw_apostrophe ∨
        name.data.getLast? = some lxw_apostrophe) →
      wb.worksheet_names.any (fun n2 => lxw_lowercase n2 == lxw_lowercase name) = true →
      workbook_add_worksheet wb name =
        (.LXW_ERROR_SHEETNAME_ALREADY_USED, wb)) := by
  refine ⟨?_, ?_, ?_, ?_⟩
  · intro h1
    unfold workbook_add_worksheet lxw_workbook_validate_sheet_name
    rw [if_pos h1]
  · intro h1 h2
    unfold workbook_add_worksheet lxw_workbook_validate_sheet_name
    rw [if_neg (not_lt.mpr h1), if_pos h2]
  · intro h1 h2 h3
    unfold workbook_add_worksheet lxw_workbook_validate_sheet_name
    rw [if_neg (not_lt.mpr h1), if_neg (by rw [h2]; simp), if_pos h3]
  · intro h1 h2 h3 h4
    unfold workbook_add_worksheet lxw_workbook_validate_sheet_name
    rw [if_neg (not_lt.mpr h1), if_neg (by rw [h2]; simp), if_neg h3, if_pos h4]

/-- Witness for C4: with "sheet1" already present, adding "Sheet1"
fails with the name-already-used error and the workbook keeps only the
first sheet. -/
theorem workbook_add_worksheet_rejections_witness :
    workbook_add_worksheet (lxw_workbook.mk ["sheet1"]) "Sheet1" =
      (.LXW_ERROR_SHEETNAME_ALREADY_USED, lxw_workbook.mk ["sheet1"]) :=
  (workbook_add_worksheet_rejections (lxw_workbook.mk ["sheet1"])
    "Sheet1").2.2.2 (by decide) (by decide) (by decide) (by decide)

/-! ## Hyperlink limits (claim C5)

worksheet.c is not part of the visible tree; the hyperlink write is
modelled from the spec (section 6: "hyperlink length ≤2,079 characters;
≤65,530 hyperlinks per sheet") with the error codes and limits that
common.h documents for its members. -/

/-- Maximum hyperlink length (common.h line 143 documents 2079). -/
def LXW_MAX_URL_LENGTH : Nat := 2079

/-- Maximum number of worksheet URLs (common.h line 146 documents
65530). -/
def LXW_MAX_NUMBER_URLS : Nat := 65530

/-- Modelled from the spec: the hyperlink state of a worksheet — how
many hyperlinks it holds and the links themselves. -/
structure lxw_worksheet_urls where
  hlink_count : Nat
  hyperlinks : List (Nat × Nat × String)

/-- Modelled from the spec: `worksheet_write_url`.  Bounds, then URL
length, then the per-sheet hyperlink budget are validated; a failed
write leaves the worksheet unchanged, a successful one stores the whole
URL (nothing is clipped). -/
def worksheet_write_url (ws : lxw_worksheet_urls) (row col : Nat)
    (url : String) : lxw_error × lxw_worksheet_urls :=
  if LXW_ROW_MAX ≤ row ∨ LXW_COL_MAX ≤ col then
    (.LXW_ERROR_WORKSHEET_INDEX_OUT_OF_RANGE, ws)
  else if LXW_MAX_URL_LENGTH < url.length then
    (.LXW_ERROR_WORKSHEET_MAX_URL_LENGTH_EXCEEDED, ws)
  else if LXW_MAX_NUMBER_URLS ≤ ws.hlink_count then
    (.LXW_ERROR_WORKSHEET_MAX_NUMBER_URLS_EXCEEDED, ws)
  else (.LXW_NO_ERROR,
    ⟨ws.hlink_count + 1, ws.hyperlinks ++ [(row, col, url)]⟩)

/-- C5: a URL longer than 2,079 characters fails with
`LXW_ERROR_WORKSHEET_MAX_URL_LENGTH_EXCEEDED`; adding a hyperlink to a
sheet already holding 65,530 hyperlinks fails with
`LXW_ERROR_WORKSHEET_MAX_NUMBER_URLS_EXCEEDED`; both failures leave the
worksheet unchanged, and a write within both limits stores the full URL
(the limits are enforced, never silently clipped). -/
theorem worksheet_write_url_limits (ws : lxw_worksheet_urls) (row col : Nat)
    (url : String) (hrow : row < LXW_ROW_MAX) (hcol : col < LXW_COL_MAX) :
    (LXW_MAX_URL_LENGTH < url.length →
      worksheet_write_url ws row col url =
        (.LXW_ERROR_WORKSHEET_MAX_URL_LENGTH_EXCEEDED, ws)) ∧
    (url.length ≤ LXW_MAX_URL_LENGTH → LXW_MAX_NUMBER_URLS ≤ ws.hlink_count →
      worksheet_write_url ws row col url =
        (.LXW_ERROR_WORKSHEET_MAX_NUMBER_URLS_EXCEEDED, ws)) ∧
    (url.length ≤ LXW_MAX_URL_LENGTH → ws.hlink_count < LXW_MAX_NUMBER_URLS →
      worksheet_write_url ws row col url = (.LXW_NO_ERROR,
        ⟨ws.hlink_count + 1, ws.hyperlinks ++ [(row, col, url)]⟩)) := by
  have h1 : ¬ (LXW_ROW_MAX ≤ row ∨ LXW_COL_MAX ≤ col) := by
    rintro (hc | hc)
    · exact absurd hc (not_le.mpr hrow)
    · exact absurd hc (not_le.mpr hcol)
  refine ⟨?_, ?_, ?_⟩
  · intro h2
    unfold worksheet_write_url
    rw [if_neg h1, if_pos h2]
  · intro h2 h3
    unfold worksheet_write_url
    rw [if_neg h1, if_neg (not_lt.mpr h2), if_pos h3]
  · intro h2 h3
    unfold worksheet_write_url
    rw [if_neg h1, if_neg (not_lt.mpr h2), if_neg (not_le.mpr h3)]

/-- Witness for C5: a 2,080-character URL is rejected on an empty sheet,
and a 1-character URL is rejected on a sheet already holding 65,530
hyperlinks. -/
theorem worksheet_write_url_limits_witness :
    worksheet_write_url (lxw_worksheet_urls.mk 0 []) 0 0
        (String.mk (List.replicate 2080 'a')) =
      (.LXW_ERROR_WORKSHEET_MAX_URL_LENGTH_EXCEEDED,
        lxw_worksheet_urls.mk 0 []) ∧
    worksheet_write_url (lxw_worksheet_urls.mk 65530 []) 0 0 "u" =
      (.LXW_ERROR_WORKSHEET_MAX_NUMBER_URLS_EXCEEDED,
        lxw_worksheet_urls.mk 65530 []) :=
  ⟨(worksheet_write_url_limits (lxw_worksheet_urls.mk 0 []) 0 0
      (String.mk (List.replicate 2080 'a'))
      (by norm_num [LXW_ROW_MAX]) (by norm_num [LXW_COL_MAX])).1
      (by rw [show (String.mk (List.replicate 2080 'a')).length =
            (List.replicate 2080 'a').length from rfl, List.length_replicate]
          norm_num [LXW_MAX_URL_LENGTH]),
    (worksheet_write_url_limits (lxw_worksheet_urls.mk 65530 []) 0 0 "u"
      (by norm_num [LXW_ROW_MAX]) (by norm_num [LXW_COL_MAX])).2.1
      (by decide) (by norm_num [LXW_MAX_NUMBER_URLS])⟩
